import Mathlib

/-!
Shallow embedding of `src/examples/python-app/app.py`: a small Flask HTTP
service with five routes (`/`, `/health`, `/ready`, `/metrics`, `/info`),
404/500 error handlers, a security-header after-request hook, environment
configuration with defaults, and a signal-driven graceful shutdown.

Time is modelled abstractly by a `Clock` carrying the value of
`datetime.now()` (as an integer instant) together with its ISO-8601
rendering `isoformat()`.  Values sampled from the operating system by
`psutil` (memory, CPU, fd/thread counts) arrive in a `SysSample`; static
process facts (`sys.version`, pid, cwd, ...) arrive in a `SysInfo`.
-/

namespace App

/-- JSON values, as assembled by `jsonify` in the handlers. -/
inductive JVal where
  | str (s : String)
  | int (n : Int)
  | bool (b : Bool)
  | obj (fields : List (String × JVal))

/-- A response body: JSON (from `jsonify`) or plain text (from `/metrics`). -/
inductive Body where
  | json (v : JVal)
  | text (s : String)

/-- An HTTP response: status code, content type, extra headers, body. -/
structure Response where
  status : Nat
  contentType : String
  headers : List (String × String)
  body : Body

/-- Configuration record built by the module-level `CONFIG` dict. -/
structure Config where
  port : Int
  host : String
  env : String
  debug : Bool
  deriving DecidableEq

/-- Digit value of an ASCII decimal digit. -/
def digitVal (c : Char) : Option Nat :=
  if c.isDigit then some (c.toNat - 48) else none

/-- Decimal value of a non-empty digit string. -/
def digitsToNat : List Char → Option Nat
  | [] => none
  | cs => cs.foldl
      (fun acc c => acc.bind (fun n => (digitVal c).map (fun d => 10 * n + d)))
      (some 0)

/-- Models Python `int(s)` on an ASCII decimal string: surrounding
whitespace stripped, optional sign, decimal digits; `none` models the
`ValueError` path. -/
def pyInt (s : String) : Option Int :=
  let cs :=
    ((s.data.dropWhile Char.isWhitespace).reverse.dropWhile
      Char.isWhitespace).reverse
  match cs with
  | '-' :: rest => (digitsToNat rest).map (fun n => -(n : Int))
  | '+' :: rest => (digitsToNat rest).map (fun n => (n : Int))
  | _ => (digitsToNat cs).map (fun n => (n : Int))

/-- Models Python `str.lower()` on ASCII strings. -/
def pyLower (s : String) : String :=
  ⟨s.data.map Char.toLower⟩

/-- The module-level `CONFIG` dict, built from the environment at import
time: `port` from `PORT` (default 8080, via `int`), `host` from `HOST`
(default `0.0.0.0`), `env` from `FLASK_ENV` (default `production`),
`debug` true exactly when `DEBUG` lower-cases to `true` (default
`false`).  `none` models `int()` raising on an unparsable `PORT`. -/
def CONFIG (getenv : String → Option String) : Option Config := do
  let port ← match getenv "PORT" with
    | none => pure (8080 : Int)
    | some s => pyInt s
  pure { port := port
         host := (getenv "HOST").getD "0.0.0.0"
         env := (getenv "FLASK_ENV").getD "production"
         debug := pyLower ((getenv "DEBUG").getD "false") == "true" }

/-- Process-wide mutable state: `start_time` (set once at import) and
`is_shutting_down` (initially false), plus the immutable `CONFIG`. -/
structure ProcState where
  config : Config
  start_time : Int
  is_shutting_down : Bool

/-- The value of `datetime.now()` during one handler run: the instant
itself and its `isoformat()` rendering. -/
structure Clock where
  now : Int
  isoNow : String

/-- Values sampled from the OS by `psutil` inside `/metrics`. -/
structure SysSample where
  cpuPercent : Int
  rss : Nat
  vms : Nat
  numFds : Nat
  numThreads : Nat

/-- Static runtime/process/system facts read by `/` and `/info`. -/
structure SysInfo where
  pythonVersion : String
  executable : String
  platform : String
  pid : Nat
  user : String
  cwd : String
  cpuCount : Nat
  memTotal : Nat
  memAvailable : Nat

/-- `jsonify(...), status` — a JSON response with the given status. -/
def jsonResp (status : Nat) (fields : List (String × JVal)) : Response :=
  { status := status
    contentType := "application/json"
    headers := []
    body := .json (.obj fields) }

/-- Route `/` (`index`): 503 with an error body while shutting down,
otherwise the greeting payload. -/
def index (st : ProcState) (clock : Clock) (sys : SysInfo) : Response :=
  if st.is_shutting_down then
    jsonResp 503 [("error", .str "Service shutting down")]
  else
    jsonResp 200
      [("message", .str "Hello from Python Docker base image!"),
       ("version", .str "1.0.0"),
       ("environment", .str st.config.env),
       ("timestamp", .str clock.isoNow),
       ("python_version", .str sys.pythonVersion)]

/-- Route `/health`: always 200 with status/uptime/timestamp. -/
def health (st : ProcState) (clock : Clock) : Response :=
  jsonResp 200
    [("status", .str "healthy"),
     ("uptime", .int (clock.now - st.start_time)),
     ("timestamp", .str clock.isoNow)]

/-- Route `/ready`: `ready = not is_shutting_down`, 200 when ready else 503. -/
def ready (st : ProcState) (clock : Clock) : Response :=
  jsonResp (if st.is_shutting_down then 503 else 200)
    [("ready", .bool (!st.is_shutting_down)),
     ("timestamp", .str clock.isoNow)]

/-- One line of the Prometheus text exposition produced by `/metrics`:
a `# ...` comment, a blank line, or a `name value` sample. -/
inductive ExpLine where
  | comment (s : String)
  | blank
  | data (key : String) (value : Int)

/-- The line-by-line content of the `/metrics` f-string. -/
def metricsExp (st : ProcState) (clock : Clock) (s : SysSample) : List ExpLine :=
  [.comment "# HELP process_uptime_seconds Process uptime in seconds",
   .comment "# TYPE process_uptime_seconds gauge",
   .data "process_uptime_seconds" (clock.now - st.start_time),
   .blank,
   .comment "# HELP process_cpu_percent Process CPU usage percentage",
   .comment "# TYPE process_cpu_percent gauge",
   .data "process_cpu_percent" s.cpuPercent,
   .blank,
   .comment "# HELP process_memory_bytes Process memory usage in bytes",
   .comment "# TYPE process_memory_bytes gauge",
   .data "process_memory_bytes\x7btype=\"rss\"\x7d" (s.rss : Int),
   .data "process_memory_bytes\x7btype=\"vms\"\x7d" (s.vms : Int),
   .blank,
   .comment "# HELP process_open_fds Number of open file descriptors",
   .comment "# TYPE process_open_fds gauge",
   .data "process_open_fds" (s.numFds : Int),
   .blank,
   .comment "# HELP process_threads Number of threads",
   .comment "# TYPE process_threads gauge",
   .data "process_threads" (s.numThreads : Int)]

/-- Render one exposition line to text. -/
def renderExpLine : ExpLine → String
  | .comment s => s
  | .blank => ""
  | .data k v => k ++ " " ++ toString v

/-- The `/metrics` body text (the f-string ends with a trailing newline). -/
def metricsBody (st : ProcState) (clock : Clock) (s : SysSample) : String :=
  String.intercalate "\n" ((metricsExp st clock s).map renderExpLine) ++ "\n"

/-- Route `/metrics`: 200 plain text with the exposition body. -/
def metrics (st : ProcState) (clock : Clock) (s : SysSample) : Response :=
  { status := 200
    contentType := "text/plain; charset=utf-8"
    headers := []
    body := .text (metricsBody st clock s) }

/-- Extract the sample (non-comment, non-blank) content of a line. -/
def dataOf : ExpLine → Option (String × Int)
  | .data k v => some (k, v)
  | _ => none

/-- Route `/info`: nested runtime / process / system information. -/
def info (sys : SysInfo) : Response :=
  jsonResp 200
    [("python", .obj
       [("version", .str sys.pythonVersion),
        ("executable", .str sys.executable),
        ("platform", .str sys.platform)]),
     ("process", .obj
       [("pid", .int (sys.pid : Int)),
        ("user", .str sys.user),
        ("cwd", .str sys.cwd)]),
     ("system", .obj
       [("cpu_count", .int (sys.cpuCount : Int)),
        ("memory_total", .int (sys.memTotal : Int)),
        ("memory_available", .int (sys.memAvailable : Int))])]

/-- The 404 handler: echoes the requested path. -/
def not_found (path : String) : Response :=
  jsonResp 404
    [("error", .str "Not Found"),
     ("path", .str path)]

/-- The 500 handler: generic message, detail only logged. -/
def internal_error : Response :=
  jsonResp 500 [("error", .str "Internal Server Error")]

/-- `response.headers[k] = v`: replace any existing `k` entry. -/
def setHeader (hs : List (String × String)) (k v : String) :
    List (String × String) :=
  hs.filter (fun p => p.1 != k) ++ [(k, v)]

/-- The four assignments performed by the after-request hook. -/
def applySecurityHeaders (hs : List (String × String)) :
    List (String × String) :=
  setHeader
    (setHeader
      (setHeader
        (setHeader hs "X-Content-Type-Options" "nosniff")
        "X-Frame-Options" "DENY")
      "X-XSS-Protection" "1; mode=block")
    "Strict-Transport-Security" "max-age=31536000; includeSubDomains"

/-- The `after_request` hook `add_security_headers`, applied to every
response the app produces. -/
def add_security_headers (r : Response) : Response :=
  { r with headers := applySecurityHeaders r.headers }

/-- First value carried by header `k`, if any. -/
def getHeader (r : Response) (k : String) : Option String :=
  (r.headers.find? (fun p => p.1 == k)).map Prod.snd

/-- Number of entries for header `k`. -/
def countHeader (r : Response) (k : String) : Nat :=
  (r.headers.filter (fun p => p.1 == k)).length

/-- The five registered route paths. -/
def routes : List String :=
  ["/", "/health", "/ready", "/metrics", "/info"]

/-- Flask routing: match the path against the registered routes, falling
through to the 404 handler. -/
def dispatch (st : ProcState) (clock : Clock) (sample : SysSample)
    (sys : SysInfo) (path : String) : Response :=
  if path = "/" then index st clock sys
  else if path = "/health" then health st clock
  else if path = "/ready" then ready st clock
  else if path = "/metrics" then metrics st clock sample
  else if path = "/info" then info sys
  else not_found path

/-- A full request cycle: route dispatch followed by the after-request
security-header hook. -/
def handle (st : ProcState) (clock : Clock) (sample : SysSample)
    (sys : SysInfo) (path : String) : Response :=
  add_security_headers (dispatch st clock sample sys path)

/-- Look up field `k` of a top-level JSON-object response body. -/
def fieldOf (r : Response) (k : String) : Option JVal :=
  match r.body with
  | .json (.obj fs) => ((fs.find? (fun p => p.1 == k)).map Prod.snd)
  | _ => none

/-- Log/sleep/exit events emitted by the shutdown and startup paths. -/
inductive Event where
  | log (msg : String)
  | sleepSec (n : Nat)
  | exit (code : Nat)

/-- `signal.SIGTERM`. -/
def SIGTERM : Nat := 15

/-- `signal.SIGINT`. -/
def SIGINT : Nat := 2

/-- The signals the `graceful_shutdown` handler is registered for. -/
def registeredSignals : List Nat := [SIGTERM, SIGINT]

/-- The `graceful_shutdown` signal handler: log receipt, set the flag,
log the wait, sleep 2 seconds, log completion, exit 0. -/
def graceful_shutdown (signum : Nat) (st : ProcState) :
    ProcState × List Event :=
  ({ st with is_shutting_down := true },
   [.log ("Received signal " ++ toString signum ++
          ", starting graceful shutdown..."),
    .log "Waiting for in-flight requests to complete...",
    .sleepSec 2,
    .log "Shutdown complete",
    .exit 0])

/-- The `__main__` try/except around `app.run`: an exception escaping
startup is logged and the process exits 1. -/
def mainStartup (run : Except String Unit) : List Event :=
  match run with
  | .ok _ => []
  | .error e => [.log ("Failed to start application: " ++ e), .exit 1]

/-- Process-level operations: handling a request, or receiving a signal
dispatched to `graceful_shutdown`. -/
inductive Op where
  | req (path : String)
  | sig (signum : Nat)

/-- Effect of one operation on the process state.  Request handlers
assign no global, so a request leaves the state unchanged; a signal runs
`graceful_shutdown`. -/
def stepState : Op → ProcState → ProcState
  | .req _, st => st
  | .sig n, st => (graceful_shutdown n st).1

/-- Run a sequence of operations from a state. -/
def runOps (ops : List Op) (st : ProcState) : ProcState :=
  ops.foldl (fun s o => stepState o s) st

/- ## Helper lemmas -/

theorem add_security_headers_status (r : Response) :
    (add_security_headers r).status = r.status := rfl

theorem add_security_headers_body (r : Response) :
    (add_security_headers r).body = r.body := rfl

theorem dispatch_ready (st : ProcState) (clock : Clock) (sample : SysSample)
    (sys : SysInfo) : dispatch st clock sample sys "/ready" = ready st clock := by
  rfl

theorem dispatch_root (st : ProcState) (clock : Clock) (sample : SysSample)
    (sys : SysInfo) : dispatch st clock sample sys "/" = index st clock sys := by
  rfl

theorem dispatch_health (st : ProcState) (clock : Clock) (sample : SysSample)
    (sys : SysInfo) : dispatch st clock sample sys "/health" = health st clock := by
  rfl

theorem dispatch_metrics (st : ProcState) (clock : Clock) (sample : SysSample)
    (sys : SysInfo) :
    dispatch st clock sample sys "/metrics" = metrics st clock sample := by
  rfl

theorem dispatch_info (st : ProcState) (clock : Clock) (sample : SysSample)
    (sys : SysInfo) : dispatch st clock sample sys "/info" = info sys := by
  rfl

theorem dispatch_unmatched (st : ProcState) (clock : Clock)
    (sample : SysSample) (sys : SysInfo) (path : String)
    (h : path ∉ routes) :
    dispatch st clock sample sys path = not_found path := by
  simp only [routes, List.mem_cons, List.not_mem_nil, or_false, not_or] at h
  obtain ⟨h1, h2, h3, h4, h5⟩ := h
  simp [dispatch, h1, h2, h3, h4, h5]

/-- The four security headers, each present with exactly the documented
value and exactly once. -/
def securityHeadersOk (r : Response) : Prop :=
  getHeader r "X-Content-Type-Options" = some "nosniff" ∧
  countHeader r "X-Content-Type-Options" = 1 ∧
  getHeader r "X-Frame-Options" = some "DENY" ∧
  countHeader r "X-Frame-Options" = 1 ∧
  getHeader r "X-XSS-Protection" = some "1; mode=block" ∧
  countHeader r "X-XSS-Protection" = 1 ∧
  getHeader r "Strict-Transport-Security" =
    some "max-age=31536000; includeSubDomains" ∧
  countHeader r "Strict-Transport-Security" = 1

theorem securityHeadersOk_of_nil (r : Response) (h : r.headers = []) :
    securityHeadersOk (add_security_headers r) := by
  simp only [securityHeadersOk, getHeader, countHeader,
    add_security_headers, h]
  decide

theorem index_headers (st : ProcState) (clock : Clock) (sys : SysInfo) :
    (index st clock sys).headers = [] := by
  unfold index
  split <;> rfl

theorem dispatch_headers (st : ProcState) (clock : Clock)
    (sample : SysSample) (sys : SysInfo) (path : String) :
    (dispatch st clock sample sys path).headers = [] := by
  unfold dispatch
  split_ifs <;> first | rfl | exact index_headers st clock sys

/- ## Claims -/

/-- C1: for every request to `/ready`, the body field `ready` is true iff
the shutdown flag is false, and the status is exactly 200 when ready and
exactly 503 when not. -/
theorem ready_route_spec (st : ProcState) (clock : Clock)
    (sample : SysSample) (sys : SysInfo) :
    (fieldOf (handle st clock sample sys "/ready") "ready" =
        some (.bool true) ↔ st.is_shutting_down = false) ∧
    (fieldOf (handle st clock sample sys "/ready") "ready" =
        some (.bool (!st.is_shutting_down))) ∧
    ((handle st clock sample sys "/ready").status = 200 ↔
        st.is_shutting_down = false) ∧
    ((handle st clock sample sys "/ready").status = 503 ↔
        st.is_shutting_down = true) := by
  have hb : handle st clock sample sys "/ready" =
      add_security_headers (ready st clock) := by
    unfold handle
    rw [dispatch_ready]
  cases h : st.is_shutting_down <;>
    simp [hb, ready, h, fieldOf, jsonResp, add_security_headers_body,
      add_security_headers_status, List.find?]

/-- C3: for every request to `/`, when shutting down the response is 503
with body `{"error": "Service shutting down"}`; otherwise it is 200 JSON
with the greeting message, version `"1.0.0"`, the configured environment
name, the current ISO-8601 timestamp and the runtime version string. -/
theorem index_route_spec (st : ProcState) (clock : Clock)
    (sample : SysSample) (sys : SysInfo) :
    (st.is_shutting_down = true →
      (handle st clock sample sys "/").status = 503 ∧
      (handle st clock sample sys "/").body =
        .json (.obj [("error", .str "Service shutting down")])) ∧
    (st.is_shutting_down = false →
      (handle st clock sample sys "/").status = 200 ∧
      (handle st clock sample sys "/").contentType = "application/json" ∧
      fieldOf (handle st clock sample sys "/") "message" =
        some (.str "Hello from Python Docker base image!") ∧
      fieldOf (handle st clock sample sys "/") "version" =
        some (.str "1.0.0") ∧
      fieldOf (handle st clock sample sys "/") "environment" =
        some (.str st.config.env) ∧
      fieldOf (handle st clock sample sys "/") "timestamp" =
        some (.str clock.isoNow) ∧
      fieldOf (handle st clock sample sys "/") "python_version" =
        some (.str sys.pythonVersion)) := by
  have hb : handle st clock sample sys "/" =
      add_security_headers (index st clock sys) := by
    unfold handle
    rw [dispatch_root]
  cases h : st.is_shutting_down <;>
    simp [hb, index, h, fieldOf, jsonResp, add_security_headers,
      List.find?]

/-- C3 witness: the theorem applied in both process states. -/
theorem index_route_spec_witness :
    (handle ⟨⟨8080, "0.0.0.0", "production", false⟩, 0, true⟩
        ⟨5, "t"⟩ ⟨0, 0, 0, 1, 1⟩
        ⟨"3.12", "/usr/bin/python3", "linux", 1, "root", "/", 1, 1, 1⟩
        "/").status = 503 ∧
    (handle ⟨⟨8080, "0.0.0.0", "production", false⟩, 0, false⟩
        ⟨5, "t"⟩ ⟨0, 0, 0, 1, 1⟩
        ⟨"3.12", "/usr/bin/python3", "linux", 1, "root", "/", 1, 1, 1⟩
        "/").status = 200 :=
  ⟨((index_route_spec ⟨⟨8080, "0.0.0.0", "production", false⟩, 0, true⟩
      ⟨5, "t"⟩ ⟨0, 0, 0, 1, 1⟩
      ⟨"3.12", "/usr/bin/python3", "linux", 1, "root", "/", 1, 1, 1⟩).1
      rfl).1,
   ((index_route_spec ⟨⟨8080, "0.0.0.0", "production", false⟩, 0, false⟩
      ⟨5, "t"⟩ ⟨0, 0, 0, 1, 1⟩
      ⟨"3.12", "/usr/bin/python3", "linux", 1, "root", "/", 1, 1, 1⟩).2
      rfl).1⟩

/-- C5: for every request to `/health`, the response is 200 JSON with
status `"healthy"` and uptime equal to the current time minus the process
start time; across a pair of calls at non-decreasing clock instants the
uptime is non-negative and monotone (strictly, when the clock advanced). -/
theorem health_route_spec (st : ProcState) (c1 c2 : Clock)
    (sample : SysSample) (sys : SysInfo)
    (hstart : st.start_time ≤ c1.now) :
    (handle st c1 sample sys "/health").status = 200 ∧
    (handle st c1 sample sys "/health").contentType = "application/json" ∧
    fieldOf (handle st c1 sample sys "/health") "status" =
      some (.str "healthy") ∧
    fieldOf (handle st c1 sample sys "/health") "uptime" =
      some (.int (c1.now - st.start_time)) ∧
    0 ≤ c1.now - st.start_time ∧
    (c1.now ≤ c2.now →
      c1.now - st.start_time ≤ c2.now - st.start_time) ∧
    (c1.now < c2.now →
      c1.now - st.start_time < c2.now - st.start_time) := by
  have hb : handle st c1 sample sys "/health" =
      add_security_headers (health st c1) := by
    unfold handle
    rw [dispatch_health]
  refine ⟨by rw [hb]; rfl, by rw [hb]; rfl, ?_, ?_, ?_, ?_, ?_⟩
  · simp [hb, health, fieldOf, jsonResp, add_security_headers, List.find?]
  · simp [hb, health, fieldOf, jsonResp, add_security_headers, List.find?]
  · omega
  · omega
  · omega

/-- C5 witness: the theorem at concrete clocks 3 ≤ 5. -/
theorem health_route_spec_witness :
    fieldOf (handle ⟨⟨8080, "0.0.0.0", "production", false⟩, 1, false⟩
        ⟨3, "t1"⟩ ⟨0, 0, 0, 1, 1⟩
        ⟨"3.12", "/usr/bin/python3", "linux", 1, "root", "/", 1, 1, 1⟩
        "/health") "uptime" = some (.int 2) :=
  (health_route_spec ⟨⟨8080, "0.0.0.0", "production", false⟩, 1, false⟩
    ⟨3, "t1"⟩ ⟨5, "t2"⟩ ⟨0, 0, 0, 1, 1⟩
    ⟨"3.12", "/usr/bin/python3", "linux", 1, "root", "/", 1, 1, 1⟩
    (by decide)).2.2.2.1

/-- C8: every request whose path matches no registered route gets a 404
JSON response with `error = "Not Found"` and `path` echoing the exact
requested path. -/
theorem not_found_spec (st : ProcState) (clock : Clock)
    (sample : SysSample) (sys : SysInfo) (path : String)
    (h : path ∉ routes) :
    (handle st clock sample sys path).status = 404 ∧
    fieldOf (handle st clock sample sys path) "error" =
      some (.str "Not Found") ∧
    fieldOf (handle st clock sample sys path) "path" =
      some (.str path) := by
  have hb : handle st clock sample sys path =
      add_security_headers (not_found path) := by
    unfold handle
    rw [dispatch_unmatched st clock sample sys path h]
  refine ⟨by rw [hb]; rfl, ?_, ?_⟩ <;>
    simp [hb, not_found, fieldOf, jsonResp, add_security_headers,
      List.find?]

/-- C8 witness: the theorem at the undefined path `/does-not-exist`. -/
theorem not_found_spec_witness :
    (handle ⟨⟨8080, "0.0.0.0", "production", false⟩, 0, false⟩
        ⟨5, "t"⟩ ⟨0, 0, 0, 1, 1⟩
        ⟨"3.12", "/usr/bin/python3", "linux", 1, "root", "/", 1, 1, 1⟩
        "/does-not-exist").status = 404 :=
  (not_found_spec ⟨⟨8080, "0.0.0.0", "production", false⟩, 0, false⟩
    ⟨5, "t"⟩ ⟨0, 0, 0, 1, 1⟩
    ⟨"3.12", "/usr/bin/python3", "linux", 1, "root", "/", 1, 1, 1⟩
    "/does-not-exist" (by decide)).1

/-- C4: every response, for every route and status (404 and 500 error
responses and the 503 draining responses included), carries the four
security headers, each with exactly its documented value. -/
theorem security_headers_spec (st : ProcState) (clock : Clock)
    (sample : SysSample) (sys : SysInfo) (path : String) :
    securityHeadersOk (handle st clock sample sys path) ∧
    securityHeadersOk (add_security_headers internal_error) := by
  refine ⟨?_, securityHeadersOk_of_nil internal_error rfl⟩
  exact securityHeadersOk_of_nil (dispatch st clock sample sys path)
    (dispatch_headers st clock sample sys path)

/-- C4 witness: a header value on the concrete 404 response for an
undefined path, extracted from the theorem. -/
theorem security_headers_spec_witness :
    getHeader (handle ⟨⟨8080, "0.0.0.0", "production", false⟩, 0, false⟩
        ⟨5, "t"⟩ ⟨0, 0, 0, 1, 1⟩
        ⟨"3.12", "/usr/bin/python3", "linux", 1, "root", "/", 1, 1, 1⟩
        "/nope") "X-Frame-Options" = some "DENY" :=
  (security_headers_spec ⟨⟨8080, "0.0.0.0", "production", false⟩, 0, false⟩
    ⟨5, "t"⟩ ⟨0, 0, 0, 1, 1⟩
    ⟨"3.12", "/usr/bin/python3", "linux", 1, "root", "/", 1, 1, 1⟩
    "/nope").1.2.2.1

/-- C7: every `/metrics` response is 200 with content type
`text/plain; charset=utf-8`, its exposition carries exactly the six
documented sample lines, and the values are correctly typed: uptime and
memory non-negative, fd and thread counts at least 1. -/
theorem metrics_route_spec (st : ProcState) (clock : Clock)
    (sample : SysSample) (sys : SysInfo)
    (hstart : st.start_time ≤ clock.now)
    (hfds : 1 ≤ sample.numFds) (hthr : 1 ≤ sample.numThreads) :
    (handle st clock sample sys "/metrics").status = 200 ∧
    (handle st clock sample sys "/metrics").contentType =
      "text/plain; charset=utf-8" ∧
    (handle st clock sample sys "/metrics").body =
      .text (metricsBody st clock sample) ∧
    (metricsExp st clock sample).filterMap dataOf =
      [("process_uptime_seconds", clock.now - st.start_time),
       ("process_cpu_percent", sample.cpuPercent),
       ("process_memory_bytes\x7btype=\"rss\"\x7d", (sample.rss : Int)),
       ("process_memory_bytes\x7btype=\"vms\"\x7d", (sample.vms : Int)),
       ("process_open_fds", (sample.numFds : Int)),
       ("process_threads", (sample.numThreads : Int))] ∧
    0 ≤ clock.now - st.start_time ∧
    0 ≤ (sample.rss : Int) ∧ 0 ≤ (sample.vms : Int) ∧
    1 ≤ sample.numFds ∧ 1 ≤ sample.numThreads := by
  have hb : handle st clock sample sys "/metrics" =
      add_security_headers (metrics st clock sample) := by
    unfold handle
    rw [dispatch_metrics]
  refine ⟨by rw [hb]; rfl, by rw [hb]; rfl, by rw [hb]; rfl, rfl,
    by omega, Int.natCast_nonneg _, Int.natCast_nonneg _, hfds, hthr⟩

/-- C7 witness: the theorem at a concrete state and sample. -/
theorem metrics_route_spec_witness :
    (handle ⟨⟨8080, "0.0.0.0", "production", false⟩, 1, false⟩
        ⟨4, "t"⟩ ⟨7, 1000, 2000, 8, 3⟩
        ⟨"3.12", "/usr/bin/python3", "linux", 1, "root", "/", 1, 1, 1⟩
        "/metrics").contentType = "text/plain; charset=utf-8" :=
  (metrics_route_spec ⟨⟨8080, "0.0.0.0", "production", false⟩, 1, false⟩
    ⟨4, "t"⟩ ⟨7, 1000, 2000, 8, 3⟩
    ⟨"3.12", "/usr/bin/python3", "linux", 1, "root", "/", 1, 1, 1⟩
    (by decide) (by decide) (by decide)).2.1

/-- C1 witness: the theorem at a draining state. -/
theorem ready_route_spec_witness :
    (handle ⟨⟨8080, "0.0.0.0", "production", false⟩, 0, true⟩
        ⟨5, "t"⟩ ⟨0, 0, 0, 1, 1⟩
        ⟨"3.12", "/usr/bin/python3", "linux", 1, "root", "/", 1, 1, 1⟩
        "/ready").status = 503 :=
  ((ready_route_spec ⟨⟨8080, "0.0.0.0", "production", false⟩, 0, true⟩
    ⟨5, "t"⟩ ⟨0, 0, 0, 1, 1⟩
    ⟨"3.12", "/usr/bin/python3", "linux", 1, "root", "/", 1, 1, 1⟩
    ).2.2.2).mpr rfl

/-- C2: on either registered termination signal the handler sets the
shutdown flag and its event trace is: log the receipt, log the wait,
sleep exactly 2 seconds, log completion, exit with code 0; an exception
escaping server startup is logged and exits with code 1. -/
theorem graceful_shutdown_spec (st : ProcState) (s : Nat)
    (_hs : s ∈ registeredSignals) :
    (graceful_shutdown s st).1.is_shutting_down = true ∧
    (graceful_shutdown s st).2 =
      [.log ("Received signal " ++ toString s ++
             ", starting graceful shutdown..."),
       .log "Waiting for in-flight requests to complete...",
       .sleepSec 2,
       .log "Shutdown complete",
       .exit 0] ∧
    registeredSignals = [SIGTERM, SIGINT] ∧
    (∀ e, mainStartup (.error e) =
      [.log ("Failed to start application: " ++ e), .exit 1]) :=
  ⟨rfl, rfl, rfl, fun _ => rfl⟩

/-- C2 witness: the theorem at SIGTERM from a fresh state. -/
theorem graceful_shutdown_spec_witness :
    (graceful_shutdown 15
      ⟨⟨8080, "0.0.0.0", "production", false⟩, 0, false⟩).1.is_shutting_down
      = true :=
  (graceful_shutdown_spec ⟨⟨8080, "0.0.0.0", "production", false⟩, 0, false⟩
    15 (by decide)).1

theorem runOps_shutdown_mono (ops : List Op) (st : ProcState)
    (h : st.is_shutting_down = true) :
    (runOps ops st).is_shutting_down = true := by
  induction ops generalizing st with
  | nil => exact h
  | cons op rest ih =>
    cases op with
    | req p => exact ih st h
    | sig n => exact ih _ rfl

/-- C6: once the shutdown flag is set, after any further sequence of
operations `/` and `/ready` answer 503 while `/health`, `/metrics` and
`/info` still answer 200, and no operation ever clears the flag. -/
theorem shutdown_latch_spec (st : ProcState)
    (h : st.is_shutting_down = true) (ops : List Op) (clock : Clock)
    (sample : SysSample) (sys : SysInfo) :
    (runOps ops st).is_shutting_down = true ∧
    (handle (runOps ops st) clock sample sys "/").status = 503 ∧
    (handle (runOps ops st) clock sample sys "/ready").status = 503 ∧
    (handle (runOps ops st) clock sample sys "/health").status = 200 ∧
    (handle (runOps ops st) clock sample sys "/metrics").status = 200 ∧
    (handle (runOps ops st) clock sample sys "/info").status = 200 := by
  have h' : (runOps ops st).is_shutting_down = true :=
    runOps_shutdown_mono ops st h
  refine ⟨h', ?_, ?_, ?_, ?_, ?_⟩
  · have hb : handle (runOps ops st) clock sample sys "/" =
        add_security_headers (index (runOps ops st) clock sys) := by
      unfold handle
      rw [dispatch_root]
    simp [hb, index, h', jsonResp, add_security_headers_status]
  · have hb : handle (runOps ops st) clock sample sys "/ready" =
        add_security_headers (ready (runOps ops st) clock) := by
      unfold handle
      rw [dispatch_ready]
    simp [hb, ready, h', jsonResp, add_security_headers_status]
  · have hb : handle (runOps ops st) clock sample sys "/health" =
        add_security_headers (health (runOps ops st) clock) := by
      unfold handle
      rw [dispatch_health]
    rw [hb]
    rfl
  · have hb : handle (runOps ops st) clock sample sys "/metrics" =
        add_security_headers (metrics (runOps ops st) clock sample) := by
      unfold handle
      rw [dispatch_metrics]
    rw [hb]
    rfl
  · have hb : handle (runOps ops st) clock sample sys "/info" =
        add_security_headers (info sys) := by
      unfold handle
      rw [dispatch_info]
    rw [hb]
    rfl

/-- C6 witness: the theorem after a signal and two further operations. -/
theorem shutdown_latch_spec_witness :
    (handle (runOps [.req "/health", .sig 15]
        ⟨⟨8080, "0.0.0.0", "production", false⟩, 0, true⟩)
      ⟨5, "t"⟩ ⟨0, 0, 0, 1, 1⟩
      ⟨"3.12", "/usr/bin/python3", "linux", 1, "root", "/", 1, 1, 1⟩
      "/ready").status = 503 :=
  (shutdown_latch_spec ⟨⟨8080, "0.0.0.0", "production", false⟩, 0, true⟩
    rfl [.req "/health", .sig 15] ⟨5, "t"⟩ ⟨0, 0, 0, 1, 1⟩
    ⟨"3.12", "/usr/bin/python3", "linux", 1, "root", "/", 1, 1, 1⟩).2.2.1

/-- C9: the configuration is read from the environment with defaults
8080 / `0.0.0.0` / `production` / false; the debug flag is true exactly
when `DEBUG` equals `true` case-insensitively; and no operation ever
mutates the configuration. -/
theorem CONFIG_spec (getenv : String → Option String) (c : Config)
    (h : CONFIG getenv = some c) :
    (getenv "PORT" = none → c.port = 8080) ∧
    (∀ s, getenv "PORT" = some s → pyInt s = some c.port) ∧
    c.host = (getenv "HOST").getD "0.0.0.0" ∧
    c.env = (getenv "FLASK_ENV").getD "production" ∧
    (c.debug = true ↔ pyLower ((getenv "DEBUG").getD "false") = "true") ∧
    (∀ op st, (stepState op st).config = st.config) := by
  have hstep : ∀ op st, (stepState op st).config = st.config := by
    intro op st
    cases op <;> rfl
  have hdebug : ∀ x : String,
      ((pyLower x == "true") = true ↔ pyLower x = "true") := by
    intro x
    simp
  cases hp : getenv "PORT" with
  | none =>
    simp only [CONFIG, hp] at h
    obtain rfl : ({ port := 8080
                    host := (getenv "HOST").getD "0.0.0.0"
                    env := (getenv "FLASK_ENV").getD "production"
                    debug := pyLower ((getenv "DEBUG").getD "false") ==
                      "true" } : Config) = c := Option.some.inj h
    refine ⟨fun _ => rfl, ?_, rfl, rfl, ?_, hstep⟩
    · intro s hc
      exact Option.noConfusion hc
    · exact hdebug _
  | some s =>
    simp only [CONFIG, hp] at h
    cases hv : pyInt s with
    | none =>
      rw [hv] at h
      exact absurd h (by simp)
    | some v =>
      rw [hv] at h
      simp only [Option.bind_some, Option.pure_def] at h
      obtain rfl : ({ port := v
                      host := (getenv "HOST").getD "0.0.0.0"
                      env := (getenv "FLASK_ENV").getD "production"
                      debug := pyLower ((getenv "DEBUG").getD "false") ==
                        "true" } : Config) = c := Option.some.inj h
      refine ⟨?_, ?_, rfl, rfl, ?_, hstep⟩
      · intro hcontra
        exact Option.noConfusion hcontra
      · intro s' hs'
        cases Option.some.inj hs'
        exact hv
      · exact hdebug _

/-- C9 witness: the theorem at an environment setting only `PORT=9090`. -/
theorem CONFIG_spec_witness :
    (⟨9090, "0.0.0.0", "production", false⟩ : Config).host =
      ((fun k => if k = "PORT" then some "9090" else none) "HOST").getD
        "0.0.0.0" :=
  (CONFIG_spec (fun k => if k = "PORT" then some "9090" else none)
    ⟨9090, "0.0.0.0", "production", false⟩ (by decide)).2.2.1

/-- C10: no request handler changes the process-wide state: requests
leave `start_time`, `is_shutting_down` and the configuration untouched,
and any operation that changes `is_shutting_down` is a signal dispatched
to `graceful_shutdown`. -/
theorem handlers_frame_spec (op : Op) (st : ProcState) :
    (stepState op st).start_time = st.start_time ∧
    (stepState op st).config = st.config ∧
    (∀ p, stepState (.req p) st = st) ∧
    ((stepState op st).is_shutting_down ≠ st.is_shutting_down →
      ∃ n, op = .sig n) := by
  cases op with
  | req p => exact ⟨rfl, rfl, fun _ => rfl, fun hc => absurd rfl hc⟩
  | sig n => exact ⟨rfl, rfl, fun _ => rfl, fun _ => ⟨n, rfl⟩⟩

/-- C10 witness: the theorem at a concrete request operation. -/
theorem handlers_frame_spec_witness :
    (stepState (.req "/health")
      ⟨⟨8080, "0.0.0.0", "production", false⟩, 0, false⟩).start_time = 0 :=
  (handlers_frame_spec (.req "/health")
    ⟨⟨8080, "0.0.0.0", "production", false⟩, 0, false⟩).1

end App
